import Mathlib

/- A shallow embedding of the "Satya-Saarthii" misinformation-analyzer pipeline.

The repository contains three near-duplicate variants of the class
`MisinformationAnalyzer`:
  * `app.py`           (Streamlit front-end)  — namespace `App`
  * `doc_extractor.py` (CLI front-end)        — namespace `Doc`
  * `server.py`        (Flask HTTP front-end) — namespace `Server`

Python strings are modelled as `List Char`; `None`-able values as `Option`;
the external collaborators (file system, HTTP fetch, pdfplumber page
extraction, pdf2image + Tesseract OCR, the Gemini model, `json.loads`, the
Google custom-search API, spaCy NER) as an explicit environment record
`Env` of oracle functions.  Each variant's `run_full_analysis` additionally
returns the list of outbound classifier / search / NER calls it makes, so
that statements such as "the classifier is never invoked" can be made
directly.  Parsed classifier replies are modelled by the record
`GeminiReport` of the closed key set named in the prompts (a missing key or
a JSON `null` value are both `none`); `json.loads` returning a non-dict
value is outside the model.  Python truthiness of a string is emptiness,
of a dict it is `GeminiReport.isEmptyDict`. -/

abbrev Str := List Char

/-- Python `str.lower` (character-wise, as used on the ASCII URL test). -/
def pyLower (x : Str) : Str := x.map Char.toLower

/-- Python `str.strip()` with no argument: remove leading and trailing
whitespace. -/
def pyStrip (x : Str) : Str :=
  ((x.dropWhile Char.isWhitespace).reverse.dropWhile Char.isWhitespace).reverse

/-- Python `str.lstrip(chars)`: remove leading characters drawn from the
character set `cs` (note: a set of characters, not a literal). -/
def lstripSet (cs x : Str) : Str := x.dropWhile (fun c => cs.contains c)

/-- Python `str.rstrip(chars)`. -/
def rstripSet (cs x : Str) : Str := (x.reverse.dropWhile (fun c => cs.contains c)).reverse

/-- Python `str.replace(pat, repl)`: replace every left-to-right,
non-overlapping occurrence of `pat`.  (Python inserts `repl` between
characters when `pat` is empty; the sources only use non-empty patterns,
and for `pat = []` this returns the string unchanged.) -/
def replaceAll (pat repl : Str) : Str → Str
  | [] => []
  | c :: rest =>
    if h : pat ≠ [] ∧ pat.isPrefixOf (c :: rest) = true then
      repl ++ replaceAll pat repl (List.drop pat.length (c :: rest))
    else
      c :: replaceAll pat repl rest
termination_by s => s.length
decreasing_by
  · have hp : 0 < pat.length := List.length_pos.mpr h.1
    simp only [List.length_drop, List.length_cons]
    omega
  · simp only [List.length_cons]
    omega

/-- The backquote character, written via its code point. -/
def btChar : Char := '\x60'

/-- The code-fence marker (three backquotes). -/
def fenceStr : Str := [btChar, btChar, btChar]

/-- The opening code-fence marker with a json language tag. -/
def fenceJsonStr : Str := [btChar, btChar, btChar, 'j', 's', 'o', 'n']

/-- `source.lower().startswith(('http://', 'https://'))`. -/
def isUrlSource (x : Str) : Bool :=
  (("http://").toList).isPrefixOf (pyLower x) ||
  (("https://").toList).isPrefixOf (pyLower x)

/-- The extension part of `os.path.splitext` (POSIX separator): the suffix
of the basename starting at its last dot, where leading dots of the
basename do not begin an extension. -/
def extOf (p : Str) : Str :=
  let base := (p.reverse.takeWhile (fun c => c ≠ '/')).reverse
  let stem := base.dropWhile (fun c => c = '.')
  if stem.contains '.' then
    '.' :: (stem.reverse.takeWhile (fun c => c ≠ '.')).reverse
  else []

/-- The extensions dispatched to image OCR. -/
def imageExts : List Str :=
  [(".png").toList, (".jpg").toList, (".jpeg").toList, (".tiff").toList, (".bmp").toList]

/-- One related-news item as assembled by `_get_related_news`. -/
structure NewsItem where
  title : Str
  link : Str
deriving DecidableEq

/-- One raw result item of the Google custom-search call (the sources read
only its `title` and `link` fields; `snippet` stands for the rest). -/
structure SearchItem where
  title : Str
  link : Str
  snippet : Str
deriving DecidableEq

/-- The parsed classifier reply: the closed key set that the prompts request
(`past_examples` appears only in the `doc_extractor.py` prompt). -/
structure GeminiReport where
  verdict : Option Str := none
  sentiment : Option Str := none
  truthfulness_score : Option Int := none
  main_claim : Option Str := none
  analysis_summary : Option Str := none
  scam_category : Option Str := none
  named_entities : Option (List (Str × List Str)) := none
  past_examples : Option (List Str) := none
deriving DecidableEq

/-- The parse of the empty JSON object — falsy as a Python dict. -/
def emptyGemini : GeminiReport := {}

/-- Python truthiness of the parsed dict: `if not gemini_analysis` fails
exactly when the dict is empty. -/
def GeminiReport.isEmptyDict (g : GeminiReport) : Bool := decide (g = emptyGemini)

/-- The remedy record built by `_get_remedies_and_reporting_info`. -/
structure RemedyReport where
  title : Str
  reporting_link : Str
  reporting_description : Str
  remedies : List Str
deriving DecidableEq

/-- The final report dict: absent keys are `none`.  `related_news` is
doubly optional because the sources store the (possibly `None`) return of
`_get_related_news` under the key only when the lookup is attempted. -/
structure FinalReport where
  error : Option Str := none
  gemini_report : Option GeminiReport := none
  named_entities : Option (List (Str × List Str)) := none
  remedies_report : Option RemedyReport := none
  related_news : Option (Option (List NewsItem)) := none
deriving DecidableEq

/-- Outbound calls to the external model services, recorded for
observation: the Gemini classifier, the custom-search API (with its `num`
parameter), and the spaCy NER pass. -/
inductive Call where
  | classify : Str → Call
  | search : Str → Nat → Call
  | ner : Str → Call
deriving DecidableEq

/-- The environment of external collaborators.  `pdfOpen` yields the
per-page `page.extract_text()` results of `pdfplumber` (`none` = open
failed); `pdfOcr` is the composite `convert_from_path` + Tesseract call for
one page (`none` = it raised).  `search` is the executed custom-search
request for a query and `num`, already projected to its `items` list
(`none` = the call raised; a successful reply without items is
`some []`). -/
structure Env where
  fetchUrl : Str → Option Str
  readDocx : Str → Option Str
  readImage : Str → Option Str
  pdfOpen : Str → Option (List (Option Str))
  pdfOcr : Str → Nat → Option Str
  fsExists : Str → Bool
  modelReply : Str → Option Str
  jsonLoads : Str → Option GeminiReport
  searchConfigured : Bool
  search : Str → Nat → Option (List SearchItem)
  ner : Str → List (Str × List Str)

/-- `page_text and len(page_text.strip()) > 50`: the page yields enough
text for direct extraction to be kept. -/
def pageGood : Option Str → Bool
  | some t => !t.isEmpty && decide ((pyStrip t).length > 50)
  | none => false

/-- The page loop of `_extract_text_from_pdf` (identical in `app.py` and
`doc_extractor.py`): direct text if the yield is large enough, otherwise
the OCR fallback for exactly that page, a failing OCR skipping the page.
Returns the accumulated text and the indices of the pages sent to OCR. -/
def pdfLoop (env : Env) (file : Str) : Nat → List (Option Str) → Str × List Nat
  | _, [] => ([], [])
  | i, pt :: rest =>
    if pageGood pt then
      (pt.getD [] ++ '\n' :: (pdfLoop env file (i + 1) rest).1,
       (pdfLoop env file (i + 1) rest).2)
    else
      match env.pdfOcr file i with
      | some o =>
        (o ++ '\n' :: (pdfLoop env file (i + 1) rest).1,
         i :: (pdfLoop env file (i + 1) rest).2)
      | none =>
        ((pdfLoop env file (i + 1) rest).1,
         i :: (pdfLoop env file (i + 1) rest).2)

/-- What one page contributes to the final concatenated text. -/
def pageContrib (env : Env) (file : Str) (i : Nat) (pt : Option Str) : Str :=
  if pageGood pt then pt.getD [] ++ ['\n']
  else
    match env.pdfOcr file i with
    | some o => o ++ ['\n']
    | none => []

/-- `_extract_text_from_pdf` (identical in `app.py` and
`doc_extractor.py`): `none` when `pdfplumber.open` raises, otherwise the
concatenation over all pages. -/
def extract_text_from_pdf (env : Env) (file : Str) : Option Str :=
  match env.pdfOpen file with
  | some pages => some (pdfLoop env file 0 pages).1
  | none => none

/-- `_get_related_news` (semantically identical in all three variants):
`None` without any call when the search service was never configured;
otherwise one request with `num=3`, projected to title/link pairs, `None`
when the call raises.  The second component records the issued request. -/
def get_related_news (env : Env) (q : Str) : Option (List NewsItem) × List Call :=
  if env.searchConfigured then
    match env.search q 3 with
    | some items => (some (items.map fun it => ⟨it.title, it.link⟩), [Call.search q 3])
    | none => (none, [Call.search q 3])
  else (none, [])

def sachetLink : Str := ("https://sachet.rbi.org.in/").toList
def pibLink : Str := ("https://factcheck.pib.gov.in/").toList
def cybercrimeLink : Str := ("https://cybercrime.gov.in/").toList

/-- The remedy table of `app.py` / `doc_extractor.py` (their entries are
identical): category ↦ (reporting link, description). -/
def link_map (cat : Str) : Option (Str × Str) :=
  if cat = ("Financial Fraud").toList then
    some (sachetLink, ("For financial fraud, report to the RBI\x27s Sachet portal and the National Cyber Crime Portal.").toList)
  else if cat = ("Health Misinformation").toList then
    some (pibLink, ("Report health-related fake news to the Press Information Bureau (PIB) Fact Check unit.").toList)
  else if cat = ("Job Scam").toList then
    some (cybercrimeLink, ("Job scams are a serious crime. Report them immediately to the National Cyber Crime Portal.").toList)
  else if cat = ("Impersonation").toList then
    some (cybercrimeLink, ("Report impersonation on the social media platform itself and also to the National Cyber Crime Portal.").toList)
  else if cat = ("General Fake News").toList then
    some (pibLink, ("For general fake news, report to the Press Information Bureau (PIB) Fact Check unit.").toList)
  else none

/-- The `link_map["General Fake News"]` description used as the default. -/
def gfnDescription : Str :=
  ("For general fake news, report to the Press Information Bureau (PIB) Fact Check unit.").toList

/-- The fixed safety-tip list of `app.py` / `doc_extractor.py`. -/
def safetyTips : List Str :=
  [("Always verify information with trusted sources before sharing or acting on it.").toList,
   ("Be skeptical of offers that seem too good to be true.").toList,
   ("Never share personal or financial information based on an unsolicited message.").toList]

/-- `_get_remedies_and_reporting_info` of `app.py` / `doc_extractor.py`:
table lookup with the "General Fake News" entry as default.  (The title
text reproduces the mojibake marker of the sources.) -/
def get_remedies (cat : Str) : RemedyReport :=
  let info := (link_map cat).getD (pibLink, gfnDescription)
  { title := ("üö® Actions & Remedies for: ").toList ++ cat
    reporting_link := info.1
    reporting_description := info.2
    remedies := safetyTips }

/-- The remedy table of `server.py` (same links, shortened descriptions). -/
def link_map_server (cat : Str) : Option (Str × Str) :=
  if cat = ("Financial Fraud").toList then
    some (sachetLink, ("Report to the RBI\x27s Sachet portal.").toList)
  else if cat = ("Health Misinformation").toList then
    some (pibLink, ("Report to the Press Information Bureau (PIB) Fact Check unit.").toList)
  else if cat = ("General Fake News").toList then
    some (pibLink, ("Report to the Press Information Bureau (PIB) Fact Check unit.").toList)
  else if cat = ("Job Scam").toList then
    some (cybercrimeLink, ("Report to the National Cyber Crime Portal.").toList)
  else if cat = ("Impersonation").toList then
    some (cybercrimeLink, ("Report to the National Cyber Crime Portal.").toList)
  else none

/-- The `server.py` default description (its "General Fake News" entry). -/
def gfnDescriptionServer : Str :=
  ("Report to the Press Information Bureau (PIB) Fact Check unit.").toList

/-- The fixed safety-tip list of `server.py`. -/
def safetyTipsServer : List Str :=
  [("Verify info with trusted sources.").toList,
   ("Be skeptical of sensational offers.").toList,
   ("Never share personal financial data.").toList]

/-- `_get_remedies_and_reporting_info` of `server.py`. -/
def get_remedies_server (cat : Str) : RemedyReport :=
  let info := (link_map_server cat).getD (pibLink, gfnDescriptionServer)
  { title := ("🚨 Actions & Remedies for: ").toList ++ cat
    reporting_link := info.1
    reporting_description := info.2
    remedies := safetyTipsServer }

namespace App

/-- The fixed part of the `app.py` prompt preceding the analyzed text
(leading indentation of the Python f-string normalized). -/
def promptHead : Str :=
  ("Act as a professional fact-checker based in India. Analyze the following text.\nA crucial instruction: If the text is accurately reporting a statement someone made (e.g., \x27Minister X said Y\x27), your verdict should be \x27REAL\x27 because the *reporting* of the statement is a fact. Your analysis_summary must then clarify this distinction, explaining that while the reporting is real, the content of the statement itself might be misleading.\n\nProvide your complete analysis as a single JSON object with the following keys:\n- \"verdict\": (string, either \"REAL\" or \"FAKE\")\n- \"sentiment\": (string, e.g., \"Neutral\", \"Biased\", \"Provocative\")\n- \"truthfulness_score\": (integer, from 0 to 100)\n- \"main_claim\": (string, a one-sentence summary of the main claim)\n- \"analysis_summary\": (string, a 2-3 sentence explanation for your verdict, clarifying any nuance as instructed above)\n- \"scam_category\": (string, if the verdict is FAKE, choose ONE from: \"Financial Fraud\", \"Health Misinformation\", \"Impersonation\", \"Job Scam\", \"General Fake News\". If REAL, use \"N/A\".)\n- \"named_entities\": (an object with keys like \"PERSON\", \"ORGANIZATION\", \"LOCATION\" and values as lists of unique strings found in the text)\n\nDo not include any text, notes, or formatting outside the JSON object itself.\n\nHere is the text to analyze:\n---\n").toList

/-- The fixed part of the `app.py` prompt following the analyzed text. -/
def promptTail : Str := ("\n---\n").toList

/-- The full instruction template of `app.py`, parameterized only by the
extracted text. -/
def promptText (text : Str) : Str := promptHead ++ text ++ promptTail

/-- `response.text.strip().replace("\x60\x60\x60json", "").replace("\x60\x60\x60", "")`. -/
def clean_response (r : Str) : Str :=
  replaceAll fenceStr [] (replaceAll fenceJsonStr [] (pyStrip r))

/-- `_analyze_text_with_gemini` of `app.py`: build the prompt, submit it,
clean the reply, parse it; any raised error (the remote call or
`json.loads`) yields `None`. -/
def analyze_text_with_gemini (env : Env) (text : Str) : Option GeminiReport :=
  match env.modelReply (promptText text) with
  | some r => env.jsonLoads (clean_response r)
  | none => none

/-- `get_text_from_source` of `app.py`: URL fetch, else dispatch an
existing path by extension, else treat the string as raw text. -/
def get_text_from_source (env : Env) (source : Str) : Option Str :=
  if isUrlSource source then env.fetchUrl source
  else if env.fsExists source then
    let ext := pyLower (extOf source)
    if ext = (".docx").toList then env.readDocx source
    else if ext = (".pdf").toList then extract_text_from_pdf env source
    else if ext ∈ imageExts then env.readImage source
    else none
  else some source

/-- `run_full_analysis` of `app.py`: classify, then (for every verdict)
attempt the related-news lookup whenever a main claim is present, and add
the remedy record only for verdict "FAKE". -/
def run_full_analysis (env : Env) (text : Str) : FinalReport × List Call :=
  match analyze_text_with_gemini env text with
  | none =>
    ({ error := some (("Failed to get analysis from the AI model.").toList) },
     [Call.classify text])
  | some g =>
    if g.isEmptyDict then
      ({ error := some (("Failed to get analysis from the AI model.").toList) },
       [Call.classify text])
    else
      let news : Option (Option (List NewsItem) × List Call) :=
        match g.main_claim with
        | some q => if q.isEmpty then none else some (get_related_news env q)
        | none => none
      let remedies : Option RemedyReport :=
        if g.verdict = some (("FAKE").toList) then
          some (get_remedies ((g.scam_category).getD (("General Fake News").toList)))
        else none
      ({ gemini_report := some g
         related_news := news.map Prod.fst
         remedies_report := remedies },
       Call.classify text :: (match news with | some nc => nc.2 | none => []))

/-- The Streamlit glue of `app.py`: resolve the source, and run the full
analysis only when some non-empty text came back (`if not report_text`). -/
def pipeline (env : Env) (source : Str) : Option (FinalReport × List Call) :=
  match get_text_from_source env source with
  | none => none
  | some t => if t.isEmpty then none else some (run_full_analysis env t)

end App

namespace Doc

/-- The fixed part of the `doc_extractor.py` prompt preceding the text. -/
def promptHead : Str :=
  ("Act as a professional fact-checker. Analyze the following text.\nProvide your complete analysis as a single JSON object with the following keys:\n- \"verdict\": (string, either \"REAL\" or \"FAKE\")\n- \"sentiment\": (string, e.g., \"Neutral\", \"Biased\")\n- \"truthfulness_score\": (integer, from 0 to 100)\n- \"main_claim\": (string, a one-sentence summary of the main claim)\n- \"analysis_summary\": (string, a 2-3 sentence explanation for your verdict)\n- \"scam_category\": (string, if the verdict is FAKE, choose ONE from the following list: \"Financial Fraud\", \"Health Misinformation\", \"Impersonation\", \"Job Scam\", \"General Fake News\". If the verdict is REAL, this should be \"N/A\".)\n- \"past_examples\": (a list of 1-2 strings with real-world examples that support your analysis)\n\nDo not include any text or formatting outside of the JSON object itself.\n\nHere is the text to analyze:\n---\n").toList

/-- The fixed part of the `doc_extractor.py` prompt following the text. -/
def promptTail : Str := ("\n---\n").toList

def promptText (text : Str) : Str := promptHead ++ text ++ promptTail

/-- `response.text.strip().lstrip("\x60\x60\x60json").rstrip("\x60\x60\x60")` — note that the
Python `lstrip`/`rstrip` arguments are character sets. -/
def clean_response (r : Str) : Str :=
  rstripSet fenceStr (lstripSet fenceJsonStr (pyStrip r))

/-- `_analyze_text_with_gemini` of `doc_extractor.py`. -/
def analyze_text_with_gemini (env : Env) (text : Str) : Option GeminiReport :=
  match env.modelReply (promptText text) with
  | some r => env.jsonLoads (clean_response r)
  | none => none

/-- `_get_text_from_input` of `doc_extractor.py`: URL fetch, else dispatch
an existing path by extension; any other input is a reported error
(`Input source not found`), never raw text. -/
def get_text_from_input (env : Env) (source : Str) : Option Str :=
  if isUrlSource source then env.fetchUrl source
  else if env.fsExists source then
    let ext := pyLower (extOf source)
    if ext = (".docx").toList then env.readDocx source
    else if ext = (".pdf").toList then extract_text_from_pdf env source
    else if ext ∈ imageExts then env.readImage source
    else none
  else none

/-- `run_full_analysis` of `doc_extractor.py`: extract, classify, run NER,
and only for verdict "FAKE" add the remedy record and (when a main claim
is present) attempt the related-news lookup. -/
def run_full_analysis (env : Env) (source : Str) : FinalReport × List Call :=
  match get_text_from_input env source with
  | none =>
    ({ error := some (("Failed to extract text from the source.").toList) }, [])
  | some t =>
    if t.isEmpty then
      ({ error := some (("Failed to extract text from the source.").toList) }, [])
    else
      match analyze_text_with_gemini env t with
      | none =>
        ({ error := some (("Failed to get analysis from Gemini API.").toList) },
         [Call.classify t])
      | some g =>
        if g.isEmptyDict then
          ({ error := some (("Failed to get analysis from Gemini API.").toList) },
           [Call.classify t])
        else
          let ents := env.ner t
          let fakePart : Option RemedyReport × Option (Option (List NewsItem) × List Call) :=
            if g.verdict = some (("FAKE").toList) then
              (some (get_remedies ((g.scam_category).getD (("General Fake News").toList))),
               match g.main_claim with
               | some q => if q.isEmpty then none else some (get_related_news env q)
               | none => none)
            else (none, none)
          ({ gemini_report := some g
             named_entities := some ents
             remedies_report := fakePart.1
             related_news := fakePart.2.map Prod.fst },
           Call.classify t :: Call.ner t ::
             (match fakePart.2 with | some nc => nc.2 | none => []))

end Doc

namespace Server

/-- The fixed part of the `server.py` prompt preceding the text. -/
def promptHead : Str :=
  ("Act as a professional fact-checker. Analyze the following text.\nProvide your complete analysis as a single JSON object with the following keys:\n- \"verdict\": (string, either \"REAL\" or \"FAKE\")\n- \"sentiment\": (string, e.g., \"Neutral\", \"Biased\")\n- \"truthfulness_score\": (integer, from 0 to 100)\n- \"main_claim\": (string, a one-sentence summary of the main claim)\n- \"analysis_summary\": (string, a 2-3 sentence explanation for your verdict)\n- \"scam_category\": (string, if FAKE, choose ONE from: \"Financial Fraud\", \"Health Misinformation\", \"Impersonation\", \"Job Scam\", \"General Fake News\". If REAL, use \"N/A\".)\n- \"named_entities\": (an object with keys like \"PERSON\", \"ORG\" and values as lists of unique strings)\nDo not include any formatting outside the JSON object itself.\nText to analyze: --- ").toList

/-- The fixed part of the `server.py` prompt following the text. -/
def promptTail : Str := (" ---").toList

def promptText (text : Str) : Str := promptHead ++ text ++ promptTail

/-- `server.py` cleans replies the same way as `doc_extractor.py`. -/
def clean_response (r : Str) : Str :=
  rstripSet fenceStr (lstripSet fenceJsonStr (pyStrip r))

/-- `_analyze_text_with_gemini` of `server.py` (its single `except` catches
both the remote call and the parse failing). -/
def analyze_text_with_gemini (env : Env) (text : Str) : Option GeminiReport :=
  match env.modelReply (promptText text) with
  | some r => env.jsonLoads (clean_response r)
  | none => none

/-- `_get_text_from_input` of `server.py`: the input text is passed
through unchanged. -/
def get_text_from_input (text_input : Str) : Str := text_input

/-- `run_full_analysis` of `server.py`: empty input is a reported error;
classify; only for verdict "FAKE" add remedies and (when a main claim is
present) attempt the related-news lookup. -/
def run_full_analysis (env : Env) (text : Str) : FinalReport × List Call :=
  let extracted := get_text_from_input text
  if extracted.isEmpty then
    ({ error := some (("Input text is empty.").toList) }, [])
  else
    match analyze_text_with_gemini env extracted with
    | none =>
      ({ error := some (("Failed to get analysis from Gemini API.").toList) },
       [Call.classify extracted])
    | some g =>
      if g.isEmptyDict then
        ({ error := some (("Failed to get analysis from Gemini API.").toList) },
         [Call.classify extracted])
      else
        let fakePart : Option RemedyReport × Option (Option (List NewsItem) × List Call) :=
          if g.verdict = some (("FAKE").toList) then
            (some (get_remedies_server ((g.scam_category).getD (("General Fake News").toList))),
             match g.main_claim with
             | some q => if q.isEmpty then none else some (get_related_news env q)
             | none => none)
          else (none, none)
        ({ gemini_report := some g
           remedies_report := fakePart.1
           related_news := fakePart.2.map Prod.fst },
         Call.classify extracted ::
           (match fakePart.2 with | some nc => nc.2 | none => []))

/-- The `/analyze` endpoint: `none` = no (or falsy) JSON body, `some none`
= a JSON body without a `text` field, `some (some t)` = a body whose
`text` field holds `t`.  Returns the HTTP status and the JSON payload. -/
def analyze_endpoint (env : Env) (body : Option (Option Str)) : Nat × FinalReport :=
  match body with
  | none => (400, { error := some (("No text provided").toList) })
  | some none => (400, { error := some (("No text provided").toList) })
  | some (some t) =>
    let r := (run_full_analysis env t).1
    if r.error.isSome then (500, r) else (200, r)

end Server

/-- A fully inert environment: no file exists, every external call fails,
the search service is unconfigured. -/
def baseEnv : Env :=
  { fetchUrl := fun _ => none
    readDocx := fun _ => none
    readImage := fun _ => none
    pdfOpen := fun _ => none
    pdfOcr := fun _ _ => none
    fsExists := fun _ => false
    modelReply := fun _ => none
    jsonLoads := fun _ => none
    searchConfigured := false
    search := fun _ _ => none
    ner := fun _ => [] }

/-- A configured search service that succeeds with zero items. -/
def envSearchEmpty : Env :=
  { baseEnv with searchConfigured := true, search := fun _ _ => some [] }

/-- A classifier reply with verdict REAL and a non-empty main claim. -/
def gReal : GeminiReport :=
  { verdict := some (("REAL").toList)
    truthfulness_score := some 90
    main_claim := some (("claim").toList) }

/-- A classifier reply with verdict FAKE, category Job Scam, and a main
claim. -/
def gFake : GeminiReport :=
  { verdict := some (("FAKE").toList)
    scam_category := some (("Job Scam").toList)
    main_claim := some (("claim").toList) }

/-- An environment whose classifier deterministically yields `gReal`, with
a resolvable docx source and a configured search service. -/
def envReal : Env :=
  { baseEnv with
    fsExists := fun _ => true
    readDocx := fun _ => some (("hello").toList)
    modelReply := fun _ => some []
    jsonLoads := fun _ => some gReal
    searchConfigured := true
    search := fun _ _ => some [] }

/-- An environment whose classifier deterministically yields `gFake`, with
a resolvable docx source. -/
def envFake : Env :=
  { baseEnv with
    fsExists := fun _ => true
    readDocx := fun _ => some (("hello").toList)
    modelReply := fun _ => some []
    jsonLoads := fun _ => some gFake }

/-- Two pdf pages: the first yields 51 characters directly, the second too
little; every OCR attempt fails. -/
def pages2 : List (Option Str) := [some (List.replicate 51 'a'), some (("short").toList)]

/-- An environment exposing `pages2` as the only pdf, with failing OCR. -/
def envPdf : Env := { baseEnv with pdfOpen := fun _ => some pages2 }

/- ================= helper lemmas ================= -/

theorem replaceAll_nil (pat repl : Str) : replaceAll pat repl [] = [] := by
  simp [replaceAll]

theorem replaceAll_cons_neg (pat repl : Str) (c : Char) (rest : Str)
    (h : ¬(pat ≠ [] ∧ pat.isPrefixOf (c :: rest) = true)) :
    replaceAll pat repl (c :: rest) = c :: replaceAll pat repl rest := by
  rw [replaceAll]
  exact dif_neg h

theorem isPrefixOf_append_self (l r : Str) : l.isPrefixOf (l ++ r) = true := by
  induction l with
  | nil => simp [List.isPrefixOf]
  | cons a as ih => simp [List.isPrefixOf, ih]

theorem length_le_of_isPrefixOf : ∀ (l m : Str), l.isPrefixOf m = true → l.length ≤ m.length
  | [], _, _ => by simp
  | _ :: _, [], h => by simp [List.isPrefixOf] at h
  | a :: as, b :: bs, h => by
    simp only [List.isPrefixOf, Bool.and_eq_true] at h
    have := length_le_of_isPrefixOf as bs h.2
    simp only [List.length_cons]
    omega

theorem replaceAll_head (p : Char) (ps repl t : Str) :
    replaceAll (p :: ps) repl ((p :: ps) ++ t) = repl ++ replaceAll (p :: ps) repl t := by
  rw [List.cons_append, replaceAll]
  rw [dif_pos ⟨List.cons_ne_nil p ps,
        by rw [← List.cons_append]; exact isPrefixOf_append_self _ _⟩]
  have hd : List.drop (p :: ps).length (p :: (ps ++ t)) = t := by
    simp only [List.length_cons, List.drop_succ_cons, List.drop_left]
  rw [hd]

theorem replaceAll_skip (p : Char) (ps repl t : Str) :
    ∀ (b : Str), (∀ c ∈ b, c ≠ p) →
      replaceAll (p :: ps) repl (b ++ t) = b ++ replaceAll (p :: ps) repl t
  | [], _ => by simp
  | c :: b, hb => by
    have hpc : (p == c) = false := by
      have hne : p ≠ c := fun hh => (hb c (List.mem_cons_self c b)) hh.symm
      simp [hne]
    rw [List.cons_append, replaceAll_cons_neg]
    · rw [replaceAll_skip p ps repl t b (fun x hx => hb x (List.mem_cons_of_mem _ hx))]
      rfl
    · rintro ⟨-, hpre⟩
      simp [List.isPrefixOf, hpc] at hpre

theorem replaceAll_of_short : ∀ (pat repl s : Str), s.length < pat.length →
    replaceAll pat repl s = s
  | pat, repl, [], _ => replaceAll_nil pat repl
  | pat, repl, c :: rest, h => by
    rw [replaceAll_cons_neg]
    · rw [replaceAll_of_short pat repl rest (by simp only [List.length_cons] at h; omega)]
    · rintro ⟨-, hpre⟩
      have := length_le_of_isPrefixOf pat (c :: rest) hpre
      omega

theorem ws_bt : Char.isWhitespace btChar = false := by decide

theorem pyStrip_bt_sandwich (m : Str) :
    pyStrip ((btChar :: m) ++ [btChar]) = (btChar :: m) ++ [btChar] := by
  have h1 : (btChar :: m) ++ [btChar] = btChar :: (m ++ [btChar]) := by simp
  rw [h1]
  unfold pyStrip
  rw [List.dropWhile_cons]
  simp only [ws_bt, Bool.false_eq_true, if_false]
  have h2 : (btChar :: (m ++ [btChar])).reverse = btChar :: (m.reverse ++ [btChar]) := by
    simp
  rw [h2, List.dropWhile_cons]
  simp only [ws_bt, Bool.false_eq_true, if_false]
  have h3 : (btChar :: (m.reverse ++ [btChar])).reverse = btChar :: (m ++ [btChar]) := by
    simp
  exact h3
theorem pdfLoop_cons_fst (env : Env) (file : Str) (n : Nat) (pt : Option Str)
    (rest : List (Option Str)) :
    ∃ w, (pdfLoop env file n (pt :: rest)).1 = w ++ (pdfLoop env file (n + 1) rest).1 := by
  by_cases hg : pageGood pt
  · exact ⟨pt.getD [] ++ ['\n'], by simp [pdfLoop, hg]⟩
  · cases hocr : env.pdfOcr file n with
    | some o => exact ⟨o ++ ['\n'], by simp [pdfLoop, hg, hocr]⟩
    | none => exact ⟨[], by simp [pdfLoop, hg, hocr]⟩

theorem pdf_good_infix (env : Env) (file : Str) :
    ∀ (ps : List (Option Str)) (n : Nat) (t : Str),
      some t ∈ ps → pageGood (some t) = true →
      (t ++ ['\n']) <:+: (pdfLoop env file n ps).1
  | [], _, t, h, _ => by simp at h
  | pt :: rest, n, t, h, hg => by
    rcases List.mem_cons.mp h with h1 | h2
    · rw [← h1] at *
      refine ⟨[], (pdfLoop env file (n + 1) rest).1, ?_⟩
      simp [pdfLoop, hg]
    · obtain ⟨u, v, huv⟩ := pdf_good_infix env file rest (n + 1) t h2 hg
      obtain ⟨w, hw⟩ := pdfLoop_cons_fst env file n pt rest
      exact ⟨w ++ u, v, by rw [hw, ← huv]; simp⟩

theorem pdfLoop_snd_eq (env : Env) (file : Str) :
    ∀ (ps : List (Option Str)) (n : Nat),
      (pdfLoop env file n ps).2
        = ((List.enumFrom n ps).filter (fun p => !pageGood p.2)).map Prod.fst
  | [], n => by simp [pdfLoop]
  | pt :: rest, n => by
    have ih := pdfLoop_snd_eq env file rest (n + 1)
    by_cases hg : pageGood pt
    · simp [pdfLoop, hg, List.enumFrom_cons, List.filter_cons, ih]
    · cases hocr : env.pdfOcr file n with
      | some o => simp [pdfLoop, hg, hocr, List.enumFrom_cons, List.filter_cons, ih]
      | none => simp [pdfLoop, hg, hocr, List.enumFrom_cons, List.filter_cons, ih]

theorem pdfLoop_ocr_iff (env : Env) (file : Str) (ps : List (Option Str)) (i : Nat)
    (pt : Option Str) (h : ps[i]? = some pt) :
    i ∈ (pdfLoop env file 0 ps).2 ↔ pageGood pt = false := by
  rw [pdfLoop_snd_eq]
  simp only [List.mem_map, List.mem_filter]
  constructor
  · rintro ⟨⟨j, pt'⟩, ⟨hmem, hpred⟩, hfst⟩
    have hj : j = 0 + i := by simpa using hfst
    subst hj
    rw [List.mk_add_mem_enumFrom_iff_getElem?] at hmem
    rw [h] at hmem
    injection hmem with hmem
    subst hmem
    simpa using hpred
  · intro hfalse
    refine ⟨(0 + i, pt), ⟨?_, ?_⟩, by simp⟩
    · rw [List.mk_add_mem_enumFrom_iff_getElem?]
      exact h
    · simpa using hfalse
/-- Claim C4: in PDF extraction, a page whose direct text yield (after
stripping) does not exceed 50 characters is sent to OCR — exactly those
pages are — and an OCR failure skips only that page: the direct text of
every sufficiently-yielding page still occurs (with its newline) in the
returned concatenated string, whatever the OCR oracle does. -/
theorem claim4_pdf_page_fallback (env : Env) (file : Str) (pages : List (Option Str))
    (h : env.pdfOpen file = some pages) :
    extract_text_from_pdf env file = some (pdfLoop env file 0 pages).1
    ∧ (∀ (i : Nat) (pt : Option Str), pages[i]? = some pt →
        (i ∈ (pdfLoop env file 0 pages).2 ↔ pageGood pt = false))
    ∧ (∀ t : Str, some t ∈ pages → pageGood (some t) = true →
        (t ++ ['\n']) <:+: (pdfLoop env file 0 pages).1) := by
  refine ⟨?_, ?_, ?_⟩
  · simp [extract_text_from_pdf, h]
  · intro i pt hi
    exact pdfLoop_ocr_iff env file pages i pt hi
  · intro t hmem hg
    exact pdf_good_infix env file pages 0 t hmem hg

/-- Witness for C4 at a concrete two-page PDF: the first page yields 51
characters directly, the second too little; all OCR fails, so page 1 is
the only OCR page and only the first page's text (plus newline) is
returned. -/
theorem claim4_witness :
    envPdf.pdfOpen (("f.pdf").toList) = some pages2
    ∧ extract_text_from_pdf envPdf (("f.pdf").toList)
        = some (pdfLoop envPdf (("f.pdf").toList) 0 pages2).1
    ∧ (pdfLoop envPdf (("f.pdf").toList) 0 pages2).1 = List.replicate 51 'a' ++ ['\n']
    ∧ (pdfLoop envPdf (("f.pdf").toList) 0 pages2).2 = [1] := by
  refine ⟨rfl, (claim4_pdf_page_fallback envPdf (("f.pdf").toList) pages2 rfl).1, ?_, ?_⟩
  · decide
  · decide

/-- Claim C3: the `app.py` classifier strips the surrounding code-fence
markup before JSON parsing (a fenced reply with a fence-free body cleans
to exactly that body); the parse runs on the cleaned reply and a parse
failure — like a failed remote call — yields no result; and whenever the
classifier yields no result, `run_full_analysis` returns a report whose
only field is the error and performs no enrichment call at all. -/
theorem claim3_classifier_parse :
    (∀ b : Str, (∀ c ∈ b, c ≠ btChar) →
       App.clean_response (fenceJsonStr ++ b ++ fenceStr) = b)
    ∧ (∀ (env : Env) (text : Str), env.modelReply (App.promptText text) = none →
        App.analyze_text_with_gemini env text = none)
    ∧ (∀ (env : Env) (text r : Str), env.modelReply (App.promptText text) = some r →
        App.analyze_text_with_gemini env text = env.jsonLoads (App.clean_response r))
    ∧ (∀ (env : Env) (text : Str), App.analyze_text_with_gemini env text = none →
        App.run_full_analysis env text
          = ({ error := some (("Failed to get analysis from the AI model.").toList) },
             [Call.classify text])) := by
  refine ⟨?_, ?_, ?_, ?_⟩
  · intro b hb
    unfold App.clean_response
    have hshape : fenceJsonStr ++ b ++ fenceStr
        = (btChar :: ([btChar, btChar, 'j', 's', 'o', 'n'] ++ b ++ [btChar, btChar]))
            ++ [btChar] := by
      simp [fenceJsonStr, fenceStr]
    rw [hshape, pyStrip_bt_sandwich, ← hshape]
    rw [List.append_assoc]
    rw [show fenceJsonStr = btChar :: [btChar, btChar, 'j', 's', 'o', 'n'] from rfl]
    rw [replaceAll_head]
    rw [replaceAll_skip btChar [btChar, btChar, 'j', 's', 'o', 'n'] [] fenceStr b hb]
    rw [show replaceAll (btChar :: [btChar, btChar, 'j', 's', 'o', 'n']) [] fenceStr
          = fenceStr from replaceAll_of_short _ [] fenceStr (by decide)]
    rw [List.nil_append]
    rw [show fenceStr = btChar :: [btChar, btChar] from rfl]
    rw [replaceAll_skip btChar [btChar, btChar] [] (btChar :: [btChar, btChar]) b hb]
    have hlast : replaceAll (btChar :: [btChar, btChar]) [] (btChar :: [btChar, btChar]) = [] := by
      have h0 := replaceAll_head btChar [btChar, btChar] [] []
      rw [List.append_nil] at h0
      rw [h0, replaceAll_nil]
      rfl
    rw [hlast]
    simp
  · intro env text h
    unfold App.analyze_text_with_gemini
    rw [h]
  · intro env text r h
    unfold App.analyze_text_with_gemini
    rw [h]
  · intro env text h
    unfold App.run_full_analysis
    rw [h]

/-- Witness for C3: a concretely fenced reply body survives cleaning
exactly, and a failing classifier yields the error-only report with the
single classifier call. -/
theorem claim3_witness :
    App.clean_response (fenceJsonStr ++ ("ok").toList ++ fenceStr) = ("ok").toList
    ∧ App.run_full_analysis baseEnv (("t").toList)
        = ({ error := some (("Failed to get analysis from the AI model.").toList) },
           [Call.classify (("t").toList)]) :=
  ⟨claim3_classifier_parse.1 (("ok").toList) (by decide),
   claim3_classifier_parse.2.2.2 baseEnv (("t").toList) rfl⟩

/-- Claim C5: in every variant of the remedy lookup, a category absent
from the table falls back to the "General Fake News" entry (the PIB Fact
Check link with that entry's description), and every returned record
carries the title, the reporting link and description, and the variant's
fixed safety-tip list. -/
theorem claim5_remedy_default :
    (∀ cat : Str, link_map cat = none →
       (get_remedies cat).reporting_link = pibLink
       ∧ (get_remedies cat).reporting_description = gfnDescription)
    ∧ (∀ cat : Str,
        (get_remedies cat).title = ("üö® Actions & Remedies for: ").toList ++ cat
        ∧ (get_remedies cat).remedies = safetyTips)
    ∧ (∀ cat : Str, link_map_server cat = none →
        (get_remedies_server cat).reporting_link = pibLink
        ∧ (get_remedies_server cat).reporting_description = gfnDescriptionServer)
    ∧ (∀ cat : Str,
        (get_remedies_server cat).title = ("🚨 Actions & Remedies for: ").toList ++ cat
        ∧ (get_remedies_server cat).remedies = safetyTipsServer) := by
  refine ⟨?_, ?_, ?_, ?_⟩
  · intro cat h
    unfold get_remedies
    rw [h]
    exact ⟨rfl, rfl⟩
  · intro cat
    exact ⟨rfl, rfl⟩
  · intro cat h
    unfold get_remedies_server
    rw [h]
    exact ⟨rfl, rfl⟩
  · intro cat
    exact ⟨rfl, rfl⟩

/-- Witness for C5 at a category that is in neither table. -/
theorem claim5_witness :
    link_map (("Bogus").toList) = none
    ∧ (get_remedies (("Bogus").toList)).reporting_link = pibLink
    ∧ link_map_server (("Bogus").toList) = none
    ∧ (get_remedies_server (("Bogus").toList)).reporting_link = pibLink := by
  refine ⟨by decide, (claim5_remedy_default.1 (("Bogus").toList) (by decide)).1,
    by decide, (claim5_remedy_default.2.2.1 (("Bogus").toList) (by decide)).1⟩

/-- Claim C7: the related-news lookup issues at most one request and only
with `num = 3`; with the service unconfigured it returns nothing and makes
no call; a raising call also returns nothing; a successful call returns
exactly the title/link projections of the returned items, and if the
service honours `num` then at most 3 items come back. -/
theorem claim7_related_news (env : Env) (q : Str) :
    (env.searchConfigured = false → get_related_news env q = (none, []))
    ∧ (env.searchConfigured = true → env.search q 3 = none →
        get_related_news env q = (none, [Call.search q 3]))
    ∧ (∀ items, env.searchConfigured = true → env.search q 3 = some items →
        get_related_news env q
          = (some (items.map fun it => ⟨it.title, it.link⟩), [Call.search q 3]))
    ∧ (∀ c ∈ (get_related_news env q).2, c = Call.search q 3)
    ∧ ((∀ r, env.search q 3 = some r → r.length ≤ 3) →
        ∀ l, (get_related_news env q).1 = some l → l.length ≤ 3) := by
  refine ⟨?_, ?_, ?_, ?_, ?_⟩
  · intro h
    simp [get_related_news, h]
  · intro h hs
    simp [get_related_news, h, hs]
  · intro items h hs
    simp [get_related_news, h, hs]
  · intro c hc
    by_cases h : env.searchConfigured
    · cases hs : env.search q 3 with
      | some items =>
        simp [get_related_news, h, hs] at hc
        exact hc
      | none =>
        simp [get_related_news, h, hs] at hc
        exact hc
    · simp [get_related_news, h] at hc
  · intro hhon l hl
    by_cases h : env.searchConfigured
    · cases hs : env.search q 3 with
      | some items =>
        simp [get_related_news, h, hs] at hl
        have := hhon items hs
        rw [← hl]
        simpa using this
      | none => simp [get_related_news, h, hs] at hl
    · simp [get_related_news, h] at hl

/-- Witness for C7: unconfigured service, failing call, and a one-item
success. -/
theorem claim7_witness :
    get_related_news baseEnv (("q").toList) = (none, [])
    ∧ get_related_news envSearchEmpty (("q").toList)
        = (some [], [Call.search (("q").toList) 3]) :=
  ⟨(claim7_related_news baseEnv (("q").toList)).1 rfl,
   by
    have := (claim7_related_news envSearchEmpty (("q").toList)).2.2.1 [] rfl rfl
    simpa using this⟩

/-- Claim C9 counterexample: the value returned by the related-news
operation does distinguish "not attempted" from "attempted, nothing
found": an unconfigured service yields `none` while a configured lookup
that finds zero items yields `some []`, and those values differ. -/
theorem claim9_counterexample :
    (get_related_news baseEnv (("x").toList)).1 = none
    ∧ (get_related_news envSearchEmpty (("x").toList)).1 = some []
    ∧ ((none : Option (List NewsItem)) ≠ some []) := by
  refine ⟨rfl, ?_, by decide⟩
  simp [get_related_news, envSearchEmpty, baseEnv]

/-- Claim C9 amended: a lookup that is not attempted (service
unconfigured) or fails returns `None`, while an attempted lookup finding
nothing returns the empty list — two distinct values, conflated only by
both being falsy. -/
theorem claim9_outcome_values (env : Env) (q : Str) :
    (env.searchConfigured = false → (get_related_news env q).1 = none)
    ∧ (env.searchConfigured = true → env.search q 3 = none →
        (get_related_news env q).1 = none)
    ∧ (env.searchConfigured = true → env.search q 3 = some [] →
        (get_related_news env q).1 = some []) := by
  refine ⟨?_, ?_, ?_⟩
  · intro h
    simp [get_related_news, h]
  · intro h hs
    simp [get_related_news, h, hs]
  · intro h hs
    simp [get_related_news, h, hs]

/-- Witness for the amended C9 at the two concrete environments. -/
theorem claim9_witness :
    (get_related_news baseEnv (("x2").toList)).1 = none
    ∧ (get_related_news envSearchEmpty (("x2").toList)).1 = some [] :=
  ⟨(claim9_outcome_values baseEnv (("x2").toList)).1 rfl,
   (claim9_outcome_values envSearchEmpty (("x2").toList)).2.2 rfl rfl⟩

/-- Claim C8: the analyze route returns client error 400 when the JSON
body is absent (or falsy) or lacks the `text` field; when the pipeline
result carries an error field the route returns server error 500; and
otherwise the final report is returned with status 200. -/
theorem claim8_endpoint (env : Env) :
    Server.analyze_endpoint env none
      = (400, { error := some (("No text provided").toList) })
    ∧ Server.analyze_endpoint env (some none)
        = (400, { error := some (("No text provided").toList) })
    ∧ (∀ t : Str, (Server.run_full_analysis env t).1.error.isSome = true →
        Server.analyze_endpoint env (some (some t))
          = (500, (Server.run_full_analysis env t).1))
    ∧ (∀ t : Str, (Server.run_full_analysis env t).1.error = none →
        Server.analyze_endpoint env (some (some t))
          = (200, (Server.run_full_analysis env t).1)) := by
  refine ⟨rfl, rfl, ?_, ?_⟩
  · intro t h
    simp [Server.analyze_endpoint, h]
  · intro t h
    simp [Server.analyze_endpoint, h]

/-- Witness for C8: the empty text produces an error report and status
500; a successful classification produces a report without error and
status 200. -/
theorem claim8_witness :
    (Server.run_full_analysis baseEnv []).1.error.isSome = true
    ∧ Server.analyze_endpoint baseEnv (some (some []))
        = (500, (Server.run_full_analysis baseEnv []).1)
    ∧ (Server.run_full_analysis envReal (("hello").toList)).1.error = none
    ∧ Server.analyze_endpoint envReal (some (some (("hello").toList)))
        = (200, (Server.run_full_analysis envReal (("hello").toList)).1) :=
  ⟨rfl, (claim8_endpoint baseEnv).2.2.1 [] rfl, rfl,
   (claim8_endpoint envReal).2.2.2 (("hello").toList) rfl⟩

/-- Claim C10: a POST whose JSON body holds `text = ""` passes the
presence check (no 400); `run_full_analysis` reports "Input text is
empty." as the only field, and the endpoint responds 500. -/
theorem claim10_empty_text (env : Env) :
    Server.analyze_endpoint env (some (some []))
      = (500, { error := some (("Input text is empty.").toList) })
    ∧ (Server.analyze_endpoint env (some (some []))).1 ≠ 400 := by
  have h : Server.analyze_endpoint env (some (some []))
      = (500, { error := some (("Input text is empty.").toList) }) := rfl
  exact ⟨h, by rw [h]; decide⟩

/-- Claim C1 counterexample: for the input "missing.txt" (no URL, no
existing file), the `app.py` Source Resolver does NOT yield "no text" — it
returns the string itself as raw text — and the pipeline then invokes the
classifier on it, refuting the claim for this variant. -/
theorem claim1_counterexample :
    App.get_text_from_source baseEnv (("missing.txt").toList)
      = some (("missing.txt").toList)
    ∧ App.pipeline baseEnv (("missing.txt").toList)
        = some ({ error := some (("Failed to get analysis from the AI model.").toList) },
                [Call.classify (("missing.txt").toList)]) := by
  exact ⟨by decide, by decide⟩

/-- Claim C1 amended: only the `doc_extractor.py` resolver yields no text
on a nonexistent non-URL input, with `run_full_analysis` then returning
only an error field and never invoking the classifier; the `app.py`
resolver instead treats the same input as raw text and its pipeline does
invoke the classifier on it. -/
theorem claim1_resolver_variants (env : Env) (source : Str)
    (hU : isUrlSource source = false) (hE : env.fsExists source = false)
    (hne : source ≠ []) :
    Doc.get_text_from_input env source = none
    ∧ Doc.run_full_analysis env source
        = ({ error := some (("Failed to extract text from the source.").toList) }, [])
    ∧ App.get_text_from_source env source = some source
    ∧ App.pipeline env source = some (App.run_full_analysis env source)
    ∧ Call.classify source ∈ (App.run_full_analysis env source).2 := by
  have hdoc : Doc.get_text_from_input env source = none := by
    unfold Doc.get_text_from_input
    simp [hU, hE]
  have hie : source.isEmpty = false := by
    cases source with
    | nil => exact absurd rfl hne
    | cons a l => rfl
  refine ⟨hdoc, ?_, ?_, ?_, ?_⟩
  · unfold Doc.run_full_analysis
    rw [hdoc]
  · unfold App.get_text_from_source
    simp [hU, hE]
  · unfold App.pipeline
    rw [show App.get_text_from_source env source = some source from by
          unfold App.get_text_from_source; simp [hU, hE]]
    simp [hie]
  · unfold App.run_full_analysis
    cases h : App.analyze_text_with_gemini env source with
    | none => simp
    | some g =>
      by_cases hg : g.isEmptyDict
      · simp [hg]
      · simp [hg]

/-- Witness for the amended C1 at the concrete input "missing.txt" in the
inert environment. -/
theorem claim1_witness :
    isUrlSource (("missing.txt").toList) = false
    ∧ baseEnv.fsExists (("missing.txt").toList) = false
    ∧ Doc.run_full_analysis baseEnv (("missing.txt").toList)
        = ({ error := some (("Failed to extract text from the source.").toList) }, []) :=
  ⟨by decide, rfl,
   (claim1_resolver_variants baseEnv (("missing.txt").toList) (by decide) rfl
      (by decide)).2.1⟩

/-- Claim C2: the variants disagree on the related-news policy — for a
classifier output with verdict "REAL" and a non-empty main claim, the
`app.py` pipeline attempts the lookup (stores its outcome and, when the
service is configured, issues the search request), while `doc_extractor.py`
and `server.py` do not attempt it at all (no key, no request). -/
theorem claim2_news_policy (env : Env) (text source q : Str) (g : GeminiReport)
    (hA : App.analyze_text_with_gemini env text = some g)
    (hDr : Doc.get_text_from_input env source = some text)
    (hD : Doc.analyze_text_with_gemini env text = some g)
    (hS : Server.analyze_text_with_gemini env text = some g)
    (htne : text ≠ [])
    (hge : g.isEmptyDict = false)
    (hv : g.verdict = some (("REAL").toList))
    (hmc : g.main_claim = some q)
    (hq : q ≠ []) :
    (App.run_full_analysis env text).1.related_news = some (get_related_news env q).1
    ∧ (env.searchConfigured = true → Call.search q 3 ∈ (App.run_full_analysis env text).2)
    ∧ (Doc.run_full_analysis env source).1.related_news = none
    ∧ (∀ (q2 : Str) (n : Nat), Call.search q2 n ∉ (Doc.run_full_analysis env source).2)
    ∧ (Server.run_full_analysis env text).1.related_news = none
    ∧ (∀ (q2 : Str) (n : Nat), Call.search q2 n ∉ (Server.run_full_analysis env text).2) := by
  have hqe : q.isEmpty = false := by
    cases q with
    | nil => exact absurd rfl hq
    | cons a l => rfl
  have hte : text.isEmpty = false := by
    cases text with
    | nil => exact absurd rfl htne
    | cons a l => rfl
  have happ : App.run_full_analysis env text
      = ({ gemini_report := some g
           related_news := some (get_related_news env q).1 },
         Call.classify text :: (get_related_news env q).2) := by
    unfold App.run_full_analysis
    rw [hA]
    simp +decide [hge, hmc, hqe, hv]
  have hdoc : Doc.run_full_analysis env source
      = ({ gemini_report := some g, named_entities := some (env.ner text) },
         [Call.classify text, Call.ner text]) := by
    unfold Doc.run_full_analysis
    rw [hDr]
    simp only [hte, Bool.false_eq_true, if_false]
    rw [hD]
    simp +decide [hge, hv]
  have hserver : Server.run_full_analysis env text
      = ({ gemini_report := some g }, [Call.classify text]) := by
    unfold Server.run_full_analysis
    simp only [Server.get_text_from_input, hte, Bool.false_eq_true, if_false]
    rw [hS]
    simp +decide [hge, hv]
  refine ⟨?_, ?_, ?_, ?_, ?_, ?_⟩
  · rw [happ]
  · intro hconf
    rw [happ]
    cases hs : env.search q 3 with
    | some items => simp [get_related_news, hconf, hs]
    | none => simp [get_related_news, hconf, hs]
  · rw [hdoc]
  · intro q2 n
    rw [hdoc]
    simp
  · rw [hserver]
  · intro q2 n
    rw [hserver]
    simp

/-- Witness for C2 at a concrete REAL classification with main claim
"claim": the `app.py` report carries the related-news key (and issues the
search request), the `doc_extractor.py` report does not. -/
theorem claim2_witness :
    (App.run_full_analysis envReal (("hello").toList)).1.related_news
      = some (get_related_news envReal (("claim").toList)).1
    ∧ (Doc.run_full_analysis envReal (("a.docx").toList)).1.related_news = none
    ∧ (Server.run_full_analysis envReal (("hello").toList)).1.related_news = none
    ∧ Call.search (("claim").toList) 3 ∈ (App.run_full_analysis envReal (("hello").toList)).2 := by
  have h := claim2_news_policy envReal (("hello").toList) (("a.docx").toList)
    (("claim").toList) gReal rfl (by decide) rfl rfl (by decide) (by decide) rfl rfl
    (by decide)
  exact ⟨h.1, h.2.2.1, h.2.2.2.2.1, h.2.1 rfl⟩

/-- Claim C6: the final report carries a remedies record exactly when the
classifier verdict equals "FAKE" (in both the `app.py` and
`doc_extractor.py` pipelines), and for verdict "FAKE" with category
"Job Scam" the remedy record's reporting link is the cybercrime portal. -/
theorem claim6_remedies_exactly_fake (env : Env) (text source : Str) (g : GeminiReport)
    (hA : App.analyze_text_with_gemini env text = some g)
    (hDr : Doc.get_text_from_input env source = some text)
    (hD : Doc.analyze_text_with_gemini env text = some g)
    (htne : text ≠ [])
    (hge : g.isEmptyDict = false) :
    ((App.run_full_analysis env text).1.remedies_report.isSome = true
        ↔ g.verdict = some (("FAKE").toList))
    ∧ ((Doc.run_full_analysis env source).1.remedies_report.isSome = true
        ↔ g.verdict = some (("FAKE").toList))
    ∧ (g.verdict = some (("FAKE").toList) →
        g.scam_category = some (("Job Scam").toList) →
        (App.run_full_analysis env text).1.remedies_report
            = some (get_remedies (("Job Scam").toList))
        ∧ (Doc.run_full_analysis env source).1.remedies_report
            = some (get_remedies (("Job Scam").toList))
        ∧ (get_remedies (("Job Scam").toList)).reporting_link = cybercrimeLink) := by
  have hte : text.isEmpty = false := by
    cases text with
    | nil => exact absurd rfl htne
    | cons a l => rfl
  have happ : (App.run_full_analysis env text).1.remedies_report
      = (if g.verdict = some (("FAKE").toList) then
           some (get_remedies ((g.scam_category).getD (("General Fake News").toList)))
         else none) := by
    unfold App.run_full_analysis
    rw [hA]
    simp only [hge, Bool.false_eq_true, if_false]
  have hdocR : (Doc.run_full_analysis env source).1.remedies_report
      = (if g.verdict = some (("FAKE").toList) then
           some (get_remedies ((g.scam_category).getD (("General Fake News").toList)))
         else none) := by
    unfold Doc.run_full_analysis
    rw [hDr]
    simp only [hte, Bool.false_eq_true, if_false]
    rw [hD]
    simp only [hge, Bool.false_eq_true, if_false]
    by_cases hfv : g.verdict = some (("FAKE").toList)
    · rw [if_pos hfv, if_pos hfv]
    · rw [if_neg hfv, if_neg hfv]
  refine ⟨?_, ?_, ?_⟩
  · rw [happ]
    by_cases hfv : g.verdict = some (("FAKE").toList)
    · rw [if_pos hfv]
      simp [hfv]
    · rw [if_neg hfv]
      simp only [Option.isSome_none, Bool.false_eq_true, false_iff]
      exact hfv
  · rw [hdocR]
    by_cases hfv : g.verdict = some (("FAKE").toList)
    · rw [if_pos hfv]
      simp [hfv]
    · rw [if_neg hfv]
      simp only [Option.isSome_none, Bool.false_eq_true, false_iff]
      exact hfv
  · intro hfv hsc
    refine ⟨?_, ?_, by decide⟩
    · rw [happ, if_pos hfv, hsc]
      rw [Option.getD_some]
    · rw [hdocR, if_pos hfv, hsc]
      rw [Option.getD_some]

/-- Witness for C6 at a concrete FAKE / "Job Scam" classification. -/
theorem claim6_witness :
    (App.run_full_analysis envFake (("hello").toList)).1.remedies_report
      = some (get_remedies (("Job Scam").toList))
    ∧ (Doc.run_full_analysis envFake (("a.docx").toList)).1.remedies_report
      = some (get_remedies (("Job Scam").toList))
    ∧ (get_remedies (("Job Scam").toList)).reporting_link = cybercrimeLink := by
  exact (claim6_remedies_exactly_fake envFake (("hello").toList) (("a.docx").toList)
    gFake rfl (by decide) rfl (by decide) (by decide)).2.2 rfl rfl

/-- Witness for C10: the concrete inert environment receives the empty
text and answers 500 with the empty-input error report. -/
theorem claim10_witness :
    Server.analyze_endpoint baseEnv (some (some []))
      = (500, { error := some (("Input text is empty.").toList) }) :=
  (claim10_empty_text baseEnv).1
